import Mathlib

/-!
Verification of the POI discovery-and-ranking pipeline of the
ItineraryPlanner repository (`planning_agent/agent/agent.py`).

The Python functions are shallowly embedded as Lean definitions:

* dictionaries returned by the external places service become the
  structure `RawPOI` with `Option` fields for optional keys;
* the minimized projection built inside `search_pois_along_route`
  becomes the structure `FilteredPOI`;
* the external service calls (`cached_nearby_search`,
  `get_places_text_search`) are parameters of type
  `Coord → String → Except Unit (List RawPOI)`: a `.error` value models
  a raised exception, `.ok` a successful response.  The `lru_cache`
  memoization makes each call deterministic within a run, which is what
  modelling the services as pure functions expresses;
* the floating-point square root `(...) ** 0.5` used by the scorer is
  modelled as an explicit parameter `sqrtFn : ℚ → ℚ`; theorems assume of
  it only what they need (e.g. monotonicity), and concrete witnesses
  instantiate it with a function computing the exact square root at the
  inputs used.

Numbers (coordinates, ratings, scores) are modelled as rationals.
-/

namespace ItineraryPlanner

/-- A latitude/longitude pair, as stored under `geometry.location` of a
place record and used for route points and the trip origin. -/
structure Coord where
  lat : ℚ
  lng : ℚ
deriving DecidableEq

/-- A place record as returned by the external places service.  `Option`
fields model dictionary keys that may be absent or `None`. -/
structure RawPOI where
  place_id : Option String
  name : Option String
  location : Option Coord
  rating : Option ℚ
  price_level : Option Int
  business_status : Option String
  permanently_closed : Option Bool
  types : List String
  formatted_address : Option String
  vicinity : Option String
  opening_hours_open_now : Option (Option Bool)
  user_ratings_total : Option Int
deriving DecidableEq

/-- Python `str.lower()`, modelled as code-point-wise lowercasing (the
names and labels involved are ASCII, where the two agree). -/
def lowerStr (s : String) : String :=
  String.mk (s.toList.map Char.toLower)

/-- Python `str.strip()`: drop whitespace from both ends. -/
def trimStr (s : String) : String :=
  String.mk
    (((s.toList.dropWhile Char.isWhitespace).reverse.dropWhile
      Char.isWhitespace).reverse)

/-- Python truthiness of an optional string value: the key is present and
the string is non-empty. -/
def strTruthy (o : Option String) : Option String :=
  match o with
  | some s => if s = "" then none else some s
  | none => none

/-- The place id of a POI when it is truthy (present and non-empty), as
tested by `if poi.get('place_id')` in the deduplication step. -/
def truthyPlaceId (p : RawPOI) : Option String :=
  strTruthy p.place_id

/-- One update of the insertion-ordered dictionary
`unique_pois[place_id] = poi`: an existing key keeps its position and has
its value overwritten; a new key is appended at the end. -/
def insertPoi (acc : List (String × RawPOI)) (k : String) (p : RawPOI) :
    List (String × RawPOI) :=
  if acc.any (fun kv => kv.1 = k) then
    acc.map (fun kv => if kv.1 = k then (k, p) else kv)
  else
    acc ++ [(k, p)]

/-- The dictionary `{poi.get('place_id'): poi for poi in all_pois if
poi.get('place_id')}` built by `get_pois_along_route`, as an
insertion-ordered association list. -/
def dedupPairs (l : List RawPOI) : List (String × RawPOI) :=
  l.foldl
    (fun acc p =>
      match truthyPlaceId p with
      | some k => insertPoi acc k p
      | none => acc)
    []

/-- The deduplication step `list(unique_pois.values())` of
`get_pois_along_route`. -/
def dedupByPlaceId (l : List RawPOI) : List RawPOI :=
  (dedupPairs l).map (fun kv => kv.2)

/-- The body of the `(lat, lng) × search_term` loop of
`get_pois_along_route` for one pair: a failing nearby search is caught by
the outer `except` and the pair contributes nothing; on a shortfall
(`len(pois) < threshold`) the text-search fallback is tried, and if it
raises, the inner bare `except: continue` skips `all_pois.extend(pois)`,
so the pair again contributes nothing. -/
def fetchForPair (nb : Coord → String → Except Unit (List RawPOI))
    (ts : String → Coord → Except Unit (List RawPOI))
    (threshold : Nat) (c : Coord) (term : String) : List RawPOI :=
  match nb c term with
  | Except.error _ => []
  | Except.ok pois =>
    if pois.length < threshold then
      match ts term c with
      | Except.error _ => []
      | Except.ok extra => pois ++ extra
    else
      pois

/-- One iteration of the inner `search_term` loop of
`get_pois_along_route`, acting on the `all_pois` accumulator: the
`try/except` bodies translated branch by branch (both `continue`
statements leave the accumulator unchanged). -/
def fetchStep (nb : Coord → String → Except Unit (List RawPOI))
    (ts : String → Coord → Except Unit (List RawPOI))
    (threshold : Nat) (c : Coord) (acc : List RawPOI) (term : String) :
    List RawPOI :=
  match nb c term with
  | Except.error _ => acc
  | Except.ok pois =>
    if pois.length < threshold then
      match ts term c with
      | Except.error _ => acc
      | Except.ok extra => acc ++ (pois ++ extra)
    else
      acc ++ pois

/-- One iteration of the outer `(lat, lng)` loop: fold the inner loop
over all search terms. -/
def pointStep (nb : Coord → String → Except Unit (List RawPOI))
    (ts : String → Coord → Except Unit (List RawPOI))
    (threshold : Nat) (terms : List String) (acc : List RawPOI)
    (c : Coord) : List RawPOI :=
  terms.foldl (fetchStep nb ts threshold c) acc

/-- The nested accumulation loop of `get_pois_along_route` building
`all_pois`. -/
def gatherAllPois (nb : Coord → String → Except Unit (List RawPOI))
    (ts : String → Coord → Except Unit (List RawPOI))
    (threshold : Nat) (points : List Coord) (terms : List String) :
    List RawPOI :=
  points.foldl (pointStep nb ts threshold terms) []

/-- The function `get_pois_along_route(route_points, search_terms,
threshold=5)`: gather POIs over the anchor × term cross-product, then
deduplicate by place id. -/
def get_pois_along_route (nb : Coord → String → Except Unit (List RawPOI))
    (ts : String → Coord → Except Unit (List RawPOI))
    (points : List Coord) (terms : List String) (threshold : Nat) :
    List RawPOI :=
  dedupByPlaceId (gatherAllPois nb ts threshold points terms)

/-- The hardcoded `preference_mapping` of `search_pois_along_route`,
applied to the lower-cased preference, with the fallback
`["tourist_attraction", "restaurant"]` for unknown labels. -/
def preferenceCategories (preference : String) : List String :=
  match lowerStr preference with
  | "nightlife" => ["bar", "night_club", "restaurant", "movie_theater", "entertainment"]
  | "family-friendly" => ["amusement_park", "zoo", "aquarium", "park", "restaurant"]
  | "food" => ["restaurant", "cafe", "bakery", "meal_takeaway"]
  | "nature" => ["park", "hiking_area", "natural_feature", "campground"]
  | "historical" => ["museum", "tourist_attraction", "historical_site", "art_gallery"]
  | "shopping" => ["shopping_mall", "store", "clothing_store", "department_store"]
  | "beach" => ["beach", "water_sports", "resort", "seafood_restaurant"]
  | "mountains" => ["hiking_area", "scenic_lookout", "mountain", "ski_resort"]
  | _ => ["tourist_attraction", "restaurant"]

/-- The hardcoded `budget_mapping` of `search_pois_along_route`, with the
fallback `[0, 1, 2, 3, 4]` for unknown budget labels. -/
def budgetAllowed (budget_level : String) : List Int :=
  match budget_level with
  | "budget" => [0, 1]
  | "mid-range" => [1, 2, 3]
  | "luxury" => [3, 4]
  | _ => [0, 1, 2, 3, 4]

/-- The minimized projection of a place record kept by the filtering step
of `search_pois_along_route`.  Keys that are only set conditionally
(`geometry`, `opening_hours`) are `Option` fields. -/
structure FilteredPOI where
  name : String
  place_id : String
  location : Option Coord
  formatted_address : String
  rating : Option ℚ
  user_ratings_total : Option Int
  business_status : Option String
  opening_hours_open_now : Option (Option Bool)
  price_level : Option Int
  types : List String
deriving DecidableEq

/-- ASCII sanitization `s.encode('ascii', 'ignore').decode('ascii')`:
characters outside the ASCII range are dropped. -/
def asciiSanitize (s : String) : String :=
  String.mk (s.toList.filter (fun c => c.toNat < 128))

/-- Closed-place test of the filtering step: a POI is skipped when
`poi.get('permanently_closed', False)` is truthy or
`poi.get('business_status') == 'CLOSED_TEMPORARILY'`. -/
def closedPoi (p : RawPOI) : Bool :=
  p.permanently_closed.getD false || p.business_status == some "CLOSED_TEMPORARILY"

/-- The field-by-field projection of a surviving `RawPOI` to a
`FilteredPOI` performed by the filtering loop of
`search_pois_along_route`. -/
def project (p : RawPOI) : FilteredPOI :=
  { name := asciiSanitize (p.name.getD "")
    place_id := p.place_id.getD ""
    location := p.location
    formatted_address :=
      asciiSanitize ((strTruthy p.formatted_address).getD
        ((strTruthy p.vicinity).getD ""))
    rating := p.rating
    user_ratings_total := p.user_ratings_total
    business_status := p.business_status
    opening_hours_open_now := p.opening_hours_open_now
    price_level := p.price_level
    types := p.types }

/-- The closure filter plus projection producing `filtered_pois`. -/
def closureFilterAndProject (l : List RawPOI) : List FilteredPOI :=
  (l.filter (fun p => !closedPoi p)).map project

/-- Python substring test `needle in hay`, on code points. -/
def strContains (hay needle : String) : Bool :=
  decide (needle.toList <:+: hay.toList)

/-- Budget check of the categorization loop: skip the POI when its
`price_level` is present and not in `allowed_prices`. -/
def priceOk (allowed : List Int) (p : FilteredPOI) : Bool :=
  match p.price_level with
  | none => true
  | some pl => allowed.contains pl

/-- The category a POI is assigned to: the first search term that is a
literal member of the POI type list; failing that, the first search term
flexibly matching some type (`search_term in poi_type or poi_type in
search_term`); `none` when the POI is assigned to no bucket. -/
def assignedTerm (terms : List String) (p : FilteredPOI) : Option String :=
  match terms.find? (fun t => p.types.contains t) with
  | some t => some t
  | none =>
    terms.find? (fun t =>
      p.types.any (fun ty => strContains ty t || strContains t ty))

/-- The `category_pois` dictionary after the categorization loop: one
bucket per search term, in term order, holding the budget-passing POIs
assigned to that term in discovery order.  (The search-term lists
produced by `preferenceCategories` are duplicate-free, so the map over
`terms` agrees with the insertion-ordered Python dictionary.) -/
def categoryBuckets (terms : List String) (allowed : List Int)
    (fps : List FilteredPOI) : List (String × List FilteredPOI) :=
  terms.map (fun t =>
    (t, fps.filter (fun p => priceOk allowed p && assignedTerm terms p == some t)))

/-- Rating contribution of the score: `rating * 20` when present, else
the default `3.0 * 20`. -/
def ratingTerm (p : FilteredPOI) : ℚ :=
  (p.rating.getD 3) * 20

/-- Squared degree-space distance between a POI location and the trip
origin (the quantity under the `** 0.5`). -/
def distSq (c origin : Coord) : ℚ :=
  (c.lat - origin.lat) ^ 2 + (c.lng - origin.lng) ^ 2

/-- Distance penalty `min(distance * 10, 30)`, expressed through the
square-root model `sqrtFn` applied to the squared distance. -/
def distancePenalty (sqrtFn : ℚ → ℚ) (d2 : ℚ) : ℚ :=
  min (sqrtFn d2 * 10) 30

/-- Per-POI score of `search_pois_along_route`: rating term, minus the
distance penalty when the location is present with truthy (non-zero)
latitude and longitude, clamped to a floor of 0 by `max(score, 0)`. -/
def score (sqrtFn : ℚ → ℚ) (origin : Coord) (p : FilteredPOI) : ℚ :=
  let base := ratingTerm p
  let s :=
    match p.location with
    | some c =>
      if c.lat ≠ 0 ∧ c.lng ≠ 0 then
        base - distancePenalty sqrtFn (distSq c origin)
      else
        base
    | none => base
  max s 0

/-- Descending stable sort by score followed by `[:5]`: the per-bucket
selection of `search_pois_along_route`.  `insertionSort` with the
relation `b.1 ≤ a.1` is stable and sorts scores descending, matching the
stable `sort(reverse=True, key=lambda x: x[0])`. -/
def top5 (sqrtFn : ℚ → ℚ) (origin : Coord) (pois : List FilteredPOI) :
    List FilteredPOI :=
  let scored := pois.map (fun p => (score sqrtFn origin p, p))
  let sorted := scored.insertionSort (fun a b => b.1 ≤ a.1)
  (sorted.take 5).map (fun sp => sp.2)

/-- Result of `search_pois_along_route`: either `{"pois": ...}` or the
`{"error": ...}` dictionary produced by the surrounding `except` branch
when the body raises. -/
inductive SearchResult where
  | ok (pois : List FilteredPOI)
  | err (msg : String)
deriving DecidableEq

/-- The POIs aggregated by `search_pois_along_route` before filtering:
`get_pois_along_route(route_tuples, search_terms)` with the default
threshold 5. -/
def aggregatedPois (nb : Coord → String → Except Unit (List RawPOI))
    (ts : String → Coord → Except Unit (List RawPOI))
    (points : List Coord) (preference : String) : List RawPOI :=
  get_pois_along_route nb ts points (preferenceCategories preference) 5

/-- The `filtered_pois` list of `search_pois_along_route`. -/
def pipelineFiltered (nb : Coord → String → Except Unit (List RawPOI))
    (ts : String → Coord → Except Unit (List RawPOI))
    (points : List Coord) (preference : String) : List FilteredPOI :=
  closureFilterAndProject (aggregatedPois nb ts points preference)

/-- The `category_pois` buckets of `search_pois_along_route`. -/
def pipelineBuckets (nb : Coord → String → Except Unit (List RawPOI))
    (ts : String → Coord → Except Unit (List RawPOI))
    (points : List Coord) (preference budget_level : String) :
    List (String × List FilteredPOI) :=
  categoryBuckets (preferenceCategories preference)
    (budgetAllowed budget_level)
    (pipelineFiltered nb ts points preference)

/-- The `final_pois` list of `search_pois_along_route`: each bucket's
top 5 by score, concatenated in bucket order (an empty bucket is skipped
by `continue` and contributes nothing either way). -/
def finalPois (nb : Coord → String → Except Unit (List RawPOI))
    (ts : String → Coord → Except Unit (List RawPOI))
    (sqrtFn : ℚ → ℚ) (points : List Coord)
    (preference budget_level : String) (origin : Coord) :
    List FilteredPOI :=
  ((pipelineBuckets nb ts points preference budget_level).map
    (fun bucket => top5 sqrtFn origin bucket.2)).flatten

/-- The tool `search_pois_along_route(route_points, preference,
budget_level, origin_lat, origin_lng)`.  For well-formed route points the
body never raises, so the result is always the `{"pois": ...}`
dictionary. -/
def search_pois_along_route (nb : Coord → String → Except Unit (List RawPOI))
    (ts : String → Coord → Except Unit (List RawPOI))
    (sqrtFn : ℚ → ℚ) (points : List Coord)
    (preference budget_level : String) (origin : Coord) : SearchResult :=
  SearchResult.ok (finalPois nb ts sqrtFn points preference budget_level origin)

/-- One step of a route leg; only its `start_location` is read by
`sample_route_points`. -/
structure Step where
  start_location : Coord
deriving DecidableEq

/-- One leg of a route: its steps and its `end_location`. -/
structure Leg where
  steps : List Step
  end_location : Coord
deriving DecidableEq

/-- One route of a directions result; only `legs` is read. -/
structure Route where
  legs : List Leg
deriving DecidableEq

/-- The function `sample_route_points(directions_result)`: an empty or
absent directions result yields `[]`; otherwise the start location of
every step of every leg of the first route is emitted in order, then the
end location of the final leg (`route['legs'][-1]`) is appended.  When
the first route has no legs the `[-1]` index raises `IndexError`,
modelled as `none`. -/
def sample_route_points (directions_result : List Route) :
    Option (List Coord) :=
  match directions_result with
  | [] => some []
  | route :: _ =>
    match route.legs.getLast? with
    | none => none
    | some finalLeg =>
      some ((route.legs.flatMap (fun leg =>
          leg.steps.map (fun step => step.start_location)))
        ++ [finalLeg.end_location])

/-- An entry of the `valid_pois_used` list built by `validate_itinerary`:
the stripped POI name together with the place id and types copied from
the POI record. -/
structure UsedPoi where
  name : String
  place_id : String
  types : List String
deriving DecidableEq

/-- The dictionary returned by `validate_itinerary`.  The two return
sites carry different key sets: the empty-input branch has a
`hallucinated_pois` key and no `used_count` key, the main branch the
reverse; `Option`-valued fields model key presence. -/
structure ValidationResult where
  valid_pois_used : List UsedPoi
  hallucinated_pois : Option (List UsedPoi)
  used_count : Option Nat
  total_available_pois : Nat
  is_valid : Bool
  validation_message : String
deriving DecidableEq

/-- The tool `validate_itinerary(itinerary_text, original_pois)`:
case-insensitive substring presence of each POI's stripped name in the
itinerary text; empty-named POIs are skipped by `continue`;
`total_available_pois` counts POIs with a truthy name; `is_valid` is
cleared exactly when the input list is non-empty and no POI matched. -/
def validate_itinerary (itinerary_text : String)
    (original_pois : List FilteredPOI) : ValidationResult :=
  if original_pois = [] then
    { valid_pois_used := []
      hallucinated_pois := some []
      used_count := none
      total_available_pois := 0
      is_valid := true
      validation_message := "No POIs provided for validation" }
  else
    let original_names :=
      (original_pois.filter (fun p => p.name ≠ "")).map (fun p => p.name)
    let itinerary_lower := lowerStr itinerary_text
    let valid_pois_used : List UsedPoi :=
      original_pois.filterMap (fun p =>
        let poi_name := trimStr p.name
        if poi_name = "" then none
        else if strContains itinerary_lower (lowerStr poi_name) then
          some { name := poi_name, place_id := p.place_id, types := p.types }
        else none)
    let used_count := valid_pois_used.length
    { valid_pois_used := valid_pois_used
      hallucinated_pois := none
      used_count := some used_count
      total_available_pois := original_names.length
      is_valid := !(decide (0 < original_pois.length) && decide (used_count = 0))
      validation_message :=
        if 0 < original_pois.length ∧ used_count = 0 then
          "Warning: No POIs from search results were used in itinerary"
        else
          "Successfully used " ++ toString used_count
            ++ " POIs from search results" }

/-! ### Theorems -/

/-- Unfolding of `score` when the location is present with non-zero
coordinates: the distance penalty applies. -/
lemma score_of_location (sqrtFn : ℚ → ℚ) (origin : Coord) (p : FilteredPOI)
    (c : Coord) (hloc : p.location = some c) (hlat : c.lat ≠ 0)
    (hlng : c.lng ≠ 0) :
    score sqrtFn origin p =
      max (ratingTerm p - distancePenalty sqrtFn (distSq c origin)) 0 := by
  simp [score, hloc, hlat, hlng]

/-- C5: for a non-empty directions result whose first route has at least
one leg, `sample_route_points` returns the start coordinate of every step
of every leg in original order followed by the final leg's end
coordinate, hence exactly (sum of the step counts) + 1 coordinates; an
empty directions result yields the empty sequence. -/
theorem sample_route_points_spec :
    (∀ (route : Route) (rest : List Route) (h : route.legs ≠ []),
      sample_route_points (route :: rest) =
        some ((route.legs.flatMap fun leg =>
            leg.steps.map fun s => s.start_location)
          ++ [(route.legs.getLast h).end_location]) ∧
      ((route.legs.flatMap fun leg => leg.steps.map fun s => s.start_location)
          ++ [(route.legs.getLast h).end_location]).length
        = (route.legs.map fun leg => leg.steps.length).sum + 1) ∧
    sample_route_points [] = some [] := by
  refine ⟨fun route rest h => ⟨?_, ?_⟩, rfl⟩
  · simp [sample_route_points, List.getLast?_eq_getLast _ h]
  · simp [List.length_flatMap, Function.comp_def]

/-- Concrete one-leg, one-step route used to witness C5. -/
def routeW : Route :=
  { legs := [{ steps := [{ start_location := { lat := 1, lng := 2 } }]
               end_location := { lat := 3, lng := 4 } }] }

/-- C5 witness: the theorem applied to a concrete one-leg route. -/
theorem sample_route_points_spec_witness :
    sample_route_points [routeW] =
      some ((routeW.legs.flatMap fun leg =>
          leg.steps.map fun s => s.start_location)
        ++ [(routeW.legs.getLast (List.cons_ne_nil _ _)).end_location]) :=
  (sample_route_points_spec.1 routeW [] (List.cons_ne_nil _ _)).1

/-- C7 (amended): `validate_itinerary("", [])` returns `is_valid = true`
with `valid_pois_used = []` and `total_available_pois = 0`, but the
empty-input branch carries no `used_count` key at all (it has a
`hallucinated_pois` key instead), so it does not return
`used_count = 0`. -/
theorem validate_empty_inputs :
    validate_itinerary "" [] =
      { valid_pois_used := []
        hallucinated_pois := some []
        used_count := none
        total_available_pois := 0
        is_valid := true
        validation_message := "No POIs provided for validation" } := rfl

/-- C7 counterexample: the result of `validate_itinerary("", [])` has
`is_valid = true` but its `used_count` key is absent (`none`), not `0` as
the claim states. -/
theorem validate_empty_inputs_cex :
    (validate_itinerary "" []).is_valid = true ∧
      (validate_itinerary "" []).used_count = none ∧
      (validate_itinerary "" []).used_count ≠ some 0 := by
  refine ⟨rfl, rfl, by simp [validate_itinerary]⟩

/-- C10 (amended): for a POI whose `geometry.location` is absent, or
whose latitude or longitude equals 0 (falsy), no distance penalty is
subtracted: the score is the rating term `(rating ?? 3.0) * 20` clamped
at 0, and equals the rating term exactly whenever that term is
nonnegative. -/
theorem score_no_distance_penalty :
    ∀ (sqrtFn : ℚ → ℚ) (origin : Coord) (p : FilteredPOI),
      (p.location = none ∨
        ∃ c, p.location = some c ∧ (c.lat = 0 ∨ c.lng = 0)) →
      score sqrtFn origin p = max (ratingTerm p) 0 ∧
        (0 ≤ p.rating.getD 3 → score sqrtFn origin p = ratingTerm p) := by
  intro sqrtFn origin p h
  have hbase : score sqrtFn origin p = max (ratingTerm p) 0 := by
    rcases h with h | ⟨c, hc, h0⟩
    · simp [score, h]
    · rcases h0 with h0 | h0 <;> simp [score, hc, h0]
  refine ⟨hbase, fun hr => ?_⟩
  rw [hbase, ratingTerm, max_eq_left (mul_nonneg hr (by norm_num))]

/-- Concrete POI with no location and rating 4, witnessing C10. -/
def poiNoLoc : FilteredPOI :=
  { name := "A", place_id := "a", location := none, formatted_address := ""
    rating := some 4, user_ratings_total := none, business_status := none
    opening_hours_open_now := none, price_level := none
    types := ["restaurant"] }

/-- C10 witness: a location-free POI with rating 4 scores exactly its
rating term. -/
theorem score_no_distance_penalty_witness :
    score (fun q => q) { lat := 0, lng := 0 } poiNoLoc = ratingTerm poiNoLoc :=
  (score_no_distance_penalty (fun q => q) { lat := 0, lng := 0 } poiNoLoc
    (Or.inl rfl)).2 (by norm_num [poiNoLoc])

/-- Concrete POI with no location and rating -1, refuting C10 as
stated. -/
def poiNegRating : FilteredPOI :=
  { name := "N", place_id := "n", location := none, formatted_address := ""
    rating := some (-1), user_ratings_total := none, business_status := none
    opening_hours_open_now := none, price_level := none
    types := ["restaurant"] }

/-- C10 counterexample: for a POI with missing geometry and rating -1 the
returned score is 0, not the rating term -20: the claim omits the final
`max(score, 0)` clamp. -/
theorem score_no_distance_penalty_cex :
    score (fun q => q) { lat := 0, lng := 0 } poiNegRating = 0 ∧
      ratingTerm poiNegRating = -20 := by
  constructor
  · norm_num [score, ratingTerm, poiNegRating]
  · norm_num [ratingTerm, poiNegRating]

/-- C4 (amended): for POIs whose location is present with truthy
(non-zero) latitude and longitude — the only POIs the distance penalty
applies to, per the `if poi_lat and poi_lng` guard — (i) of two such POIs
at equal squared distance to the origin, the higher-rated one scores at
least as high, and strictly higher provided its unclamped score is
positive (the `max(score, 0)` floor can otherwise equalize them); (ii) of
two such POIs with equal rating, the closer one scores at least as high,
for any monotone square-root model; (iii) the distance penalty never
exceeds 30; (iv) a POI with a zero latitude or longitude skips the
penalty entirely and receives `max(rating term, 0)`, so at equal distance
it can outscore a strictly higher-rated penalized POI — the monotonicity
statements do not extend across the truthiness guard. -/
theorem score_monotonicity :
    (∀ (sqrtFn : ℚ → ℚ) (origin : Coord) (p1 p2 : FilteredPOI) (c1 c2 : Coord),
      p1.location = some c1 → p2.location = some c2 →
      c1.lat ≠ 0 → c1.lng ≠ 0 → c2.lat ≠ 0 → c2.lng ≠ 0 →
      distSq c1 origin = distSq c2 origin →
      p2.rating.getD 3 < p1.rating.getD 3 →
      score sqrtFn origin p2 ≤ score sqrtFn origin p1 ∧
        (0 < ratingTerm p1 - distancePenalty sqrtFn (distSq c1 origin) →
          score sqrtFn origin p2 < score sqrtFn origin p1)) ∧
    (∀ (sqrtFn : ℚ → ℚ) (origin : Coord) (p1 p2 : FilteredPOI) (c1 c2 : Coord),
      (∀ a b : ℚ, a ≤ b → sqrtFn a ≤ sqrtFn b) →
      p1.location = some c1 → p2.location = some c2 →
      c1.lat ≠ 0 → c1.lng ≠ 0 → c2.lat ≠ 0 → c2.lng ≠ 0 →
      p1.rating.getD 3 = p2.rating.getD 3 →
      distSq c1 origin ≤ distSq c2 origin →
      score sqrtFn origin p2 ≤ score sqrtFn origin p1) ∧
    (∀ (sqrtFn : ℚ → ℚ) (d2 : ℚ), distancePenalty sqrtFn d2 ≤ 30) ∧
    (∀ (sqrtFn : ℚ → ℚ) (origin : Coord) (p : FilteredPOI) (c : Coord),
      p.location = some c → c.lat = 0 ∨ c.lng = 0 →
      score sqrtFn origin p = max (ratingTerm p) 0) := by
  refine ⟨?_, ?_, fun sqrtFn d2 => min_le_right _ _, ?_⟩
  · intro sqrtFn origin p1 p2 c1 c2 h1 h2 la1 ln1 la2 ln2 hd hr
    rw [score_of_location sqrtFn origin p1 c1 h1 la1 ln1,
      score_of_location sqrtFn origin p2 c2 h2 la2 ln2, ← hd]
    have hrt : ratingTerm p2 < ratingTerm p1 := by
      unfold ratingTerm
      exact mul_lt_mul_of_pos_right hr (by norm_num)
    refine ⟨max_le_max (by linarith) le_rfl, fun hpos => ?_⟩
    rw [max_eq_left (le_of_lt hpos)]
    exact max_lt_iff.mpr ⟨by linarith, hpos⟩
  · intro sqrtFn origin p1 p2 c1 c2 hmono h1 h2 la1 ln1 la2 ln2 hr hd
    rw [score_of_location sqrtFn origin p1 c1 h1 la1 ln1,
      score_of_location sqrtFn origin p2 c2 h2 la2 ln2]
    have hrt : ratingTerm p1 = ratingTerm p2 := by
      unfold ratingTerm; rw [hr]
    have hpen : distancePenalty sqrtFn (distSq c1 origin) ≤
        distancePenalty sqrtFn (distSq c2 origin) := by
      unfold distancePenalty
      exact min_le_min (by
        have := hmono _ _ hd
        linarith) le_rfl
    exact max_le_max (by linarith) le_rfl
  · intro sqrtFn origin p c hc h0
    rcases h0 with h0 | h0 <;> simp [score, hc, h0]

/-- Concrete POI at (3,4) with rating 1, for the C4 counterexample and
witness. -/
def poiRatedOne : FilteredPOI :=
  { name := "A", place_id := "a"
    location := some { lat := 3, lng := 4 }, formatted_address := ""
    rating := some 1, user_ratings_total := none, business_status := none
    opening_hours_open_now := none, price_level := none
    types := ["restaurant"] }

/-- Concrete POI at the same location with rating 0. -/
def poiRatedZero : FilteredPOI :=
  { name := "B", place_id := "b"
    location := some { lat := 3, lng := 4 }, formatted_address := ""
    rating := some 0, user_ratings_total := none, business_status := none
    opening_hours_open_now := none, price_level := none
    types := ["restaurant"] }

/-- Concrete POI at (1,2) with rating 5: both coordinates truthy, so the
distance penalty applies to it. -/
def poiRatedFive : FilteredPOI :=
  { name := "C", place_id := "c"
    location := some { lat := 1, lng := 2 }, formatted_address := ""
    rating := some 5, user_ratings_total := none, business_status := none
    opening_hours_open_now := none, price_level := none
    types := ["restaurant"] }

/-- Concrete POI at (0,5) with rating 4: its latitude 0 is falsy, so the
scorer skips its distance penalty. -/
def poiRatedFour : FilteredPOI :=
  { name := "D", place_id := "d"
    location := some { lat := 0, lng := 5 }, formatted_address := ""
    rating := some 4, user_ratings_total := none, business_status := none
    opening_hours_open_now := none, price_level := none
    types := ["restaurant"] }

/-- Floor square root on naturals by bounded search (kernel-reducible);
exact on perfect squares. -/
def floorSqrtNat (n : Nat) : Nat :=
  (((List.range (n + 1)).filter (fun k => k * k ≤ n)).getLast?).getD 0

/-- Square root model on the rationals: exact whenever the reduced
numerator times the denominator is a perfect square, as at the inputs
used by the concrete counterexamples below. -/
def ratSqrt (q : ℚ) : ℚ :=
  (floorSqrtNat (q.num.toNat * q.den) : ℚ) / (q.den : ℚ)

/-- Evaluation fact for the square-root model. -/
lemma ratSqrt_25 : ratSqrt 25 = 5 := by
  have h : floorSqrtNat 25 = 5 := by decide
  have h2 : Int.toNat 25 = 25 := rfl
  norm_num [ratSqrt, h2, h]

/-- C4 counterexample, two independent refutations of the claim as
stated.  Clamp: two POIs of the same category bucket at the same location
(squared distance 25 from the origin, so the penalty caps at 30), rated 1
and 0, both score exactly 0 because of the `max(score, 0)` floor, so the
higher-rated POI does not score strictly higher.  Truthiness guard: a POI
rated 5 at (1,2) and a POI rated 4 at (0,5) are both at squared
distance 25 from the origin (5,5); the zero-latitude POI skips the
penalty and scores 80 while the higher-rated one scores 70 — strictly
LOWER — even though the higher-rated POI's unclamped score 70 is
positive. -/
theorem score_monotonicity_cex :
    (poiRatedZero.rating.getD 3 < poiRatedOne.rating.getD 3 ∧
      poiRatedOne.location = poiRatedZero.location ∧
      ratSqrt (distSq { lat := 3, lng := 4 } { lat := 0, lng := 0 }) = 5 ∧
      score ratSqrt { lat := 0, lng := 0 } poiRatedOne = 0 ∧
      score ratSqrt { lat := 0, lng := 0 } poiRatedZero = 0 ∧
      categoryBuckets ["restaurant"] [0, 1, 2, 3, 4]
          [poiRatedOne, poiRatedZero]
        = [("restaurant", [poiRatedOne, poiRatedZero])]) ∧
    (poiRatedFour.rating.getD 3 < poiRatedFive.rating.getD 3 ∧
      distSq { lat := 1, lng := 2 } { lat := 5, lng := 5 }
        = distSq { lat := 0, lng := 5 } { lat := 5, lng := 5 } ∧
      0 < ratingTerm poiRatedFive -
        distancePenalty ratSqrt
          (distSq { lat := 1, lng := 2 } { lat := 5, lng := 5 }) ∧
      score ratSqrt { lat := 5, lng := 5 } poiRatedFive = 70 ∧
      score ratSqrt { lat := 5, lng := 5 } poiRatedFour = 80 ∧
      score ratSqrt { lat := 5, lng := 5 } poiRatedFive <
        score ratSqrt { lat := 5, lng := 5 } poiRatedFour ∧
      categoryBuckets ["restaurant"] [0, 1, 2, 3, 4]
          [poiRatedFive, poiRatedFour]
        = [("restaurant", [poiRatedFive, poiRatedFour])]) := by
  have hd : distSq { lat := 3, lng := 4 } { lat := 0, lng := 0 } = 25 := by
    norm_num [distSq]
  have hd5 : distSq { lat := 1, lng := 2 } { lat := 5, lng := 5 } = 25 := by
    norm_num [distSq]
  have hd4 : distSq { lat := 0, lng := 5 } { lat := 5, lng := 5 } = 25 := by
    norm_num [distSq]
  have hs5 : score ratSqrt { lat := 5, lng := 5 } poiRatedFive = 70 := by
    rw [score_of_location ratSqrt _ poiRatedFive { lat := 1, lng := 2 } rfl
      (by norm_num) (by norm_num), hd5]
    norm_num [ratingTerm, distancePenalty, poiRatedFive, ratSqrt_25]
  have hs4 : score ratSqrt { lat := 5, lng := 5 } poiRatedFour = 80 := by
    norm_num [score, ratingTerm, poiRatedFour]
  refine ⟨⟨by norm_num [poiRatedZero, poiRatedOne], rfl, ?_, ?_, ?_, ?_⟩,
    by norm_num [poiRatedFour, poiRatedFive], by rw [hd5, hd4], ?_, hs5,
    hs4, by rw [hs5, hs4]; norm_num, ?_⟩
  · rw [hd, ratSqrt_25]
  · rw [score_of_location ratSqrt _ poiRatedOne { lat := 3, lng := 4 } rfl
      (by norm_num) (by norm_num), hd]
    norm_num [ratingTerm, distancePenalty, poiRatedOne, ratSqrt_25]
  · rw [score_of_location ratSqrt _ poiRatedZero { lat := 3, lng := 4 } rfl
      (by norm_num) (by norm_num), hd]
    norm_num [ratingTerm, distancePenalty, poiRatedZero, ratSqrt_25]
  · simp [categoryBuckets, assignedTerm, priceOk, poiRatedOne, poiRatedZero]
  · rw [hd5]
    norm_num [ratingTerm, distancePenalty, poiRatedFive, ratSqrt_25]
  · simp [categoryBuckets, assignedTerm, priceOk, poiRatedFive, poiRatedFour]

/-- C4 witness: the amended monotonicity applied to the two concrete
same-location POIs rated 1 and 0. -/
theorem score_monotonicity_witness :
    score ratSqrt { lat := 0, lng := 0 } poiRatedZero ≤
      score ratSqrt { lat := 0, lng := 0 } poiRatedOne :=
  (score_monotonicity.1 ratSqrt { lat := 0, lng := 0 } poiRatedOne
    poiRatedZero { lat := 3, lng := 4 } { lat := 3, lng := 4 } rfl rfl
    (by norm_num) (by norm_num) (by norm_num) (by norm_num) rfl
    (by norm_num [poiRatedZero, poiRatedOne])).1

/-- Shape of one entry of the used-POI scan of `validate_itinerary`: the
entry is dropped exactly when the stripped name is empty (the `continue`)
or the lower-cased name does not occur in the lower-cased text. -/
lemma validate_entry_none (text : String) (p : FilteredPOI) :
    (if trimStr p.name = "" then (none : Option UsedPoi)
     else if strContains (lowerStr text) (lowerStr (trimStr p.name)) then
       some { name := trimStr p.name, place_id := p.place_id,
              types := p.types }
     else none) = none ↔
      trimStr p.name = "" ∨
        strContains (lowerStr text) (lowerStr (trimStr p.name)) = false := by
  by_cases h1 : trimStr p.name = "" <;>
    by_cases h2 : strContains (lowerStr text) (lowerStr (trimStr p.name)) <;>
      simp [h1, h2]

/-- C6 (amended): `validate_itinerary` returns `is_valid = false` exactly
when the supplied POI list is non-empty and no supplied POI with a
non-empty stripped name has its lower-cased stripped name occur as a
substring of the lower-cased text (the code tests `len(original_pois) >
0`, the raw list length, not `total_available > 0`); separately,
`total_available_pois` counts only the POIs with a truthy name, so it can
be 0 while `is_valid` is `false`. -/
theorem validate_is_valid_characterization :
    ∀ (text : String) (pois : List FilteredPOI),
      ((validate_itinerary text pois).is_valid = false ↔
        pois ≠ [] ∧ ∀ p ∈ pois, trimStr p.name = "" ∨
          strContains (lowerStr text) (lowerStr (trimStr p.name)) = false) ∧
      (validate_itinerary text pois).total_available_pois
        = (pois.filter (fun p => p.name ≠ "")).length := by
  intro text pois
  by_cases h : pois = []
  · subst h
    simp [validate_itinerary]
  · have hlen : 0 < pois.length := List.length_pos.mpr h
    constructor
    · simp only [validate_itinerary, if_neg h]
      have hd : decide (0 < pois.length) = true := decide_eq_true hlen
      simp only [hd, Bool.true_and, Bool.not_eq_false', decide_eq_true_eq,
        List.length_eq_zero, List.filterMap_eq_nil_iff]
      simp only [validate_entry_none]
      exact ⟨fun hall => ⟨h, hall⟩, fun hh => hh.2⟩
    · simp [validate_itinerary, if_neg h]

/-- Concrete POI whose name is the empty string, for the C6
counterexample. -/
def poiEmptyName : FilteredPOI :=
  { name := "", place_id := "e", location := none, formatted_address := ""
    rating := none, user_ratings_total := none, business_status := none
    opening_hours_open_now := none, price_level := none, types := [] }

/-- C6 counterexample: with one empty-named POI, `total_available_pois`
is 0 yet `is_valid` is `false` (and `used_count` is 0), so `is_valid =
false` does not hold exactly when `total_available > 0 ∧ used_count ==
0`. -/
theorem validate_is_valid_cex :
    (validate_itinerary "trip" [poiEmptyName]).is_valid = false ∧
      (validate_itinerary "trip" [poiEmptyName]).total_available_pois = 0 ∧
      (validate_itinerary "trip" [poiEmptyName]).used_count = some 0 := by
  refine ⟨?_, ?_, ?_⟩ <;> rfl

/-- One inner-loop iteration appends exactly the per-pair contribution
`fetchForPair` to the accumulator. -/
lemma fetchStep_eq_append (nb : Coord → String → Except Unit (List RawPOI))
    (ts : String → Coord → Except Unit (List RawPOI)) (threshold : Nat)
    (c : Coord) (acc : List RawPOI) (term : String) :
    fetchStep nb ts threshold c acc term =
      acc ++ fetchForPair nb ts threshold c term := by
  unfold fetchStep fetchForPair
  cases hnb : nb c term with
  | error e => simp
  | ok pois =>
    by_cases hlt : pois.length < threshold
    · cases hts : ts term c <;> simp [hlt]
    · simp [hlt]

/-- One outer-loop iteration appends the contributions of all search
terms at one route point. -/
lemma pointStep_eq_append (nb : Coord → String → Except Unit (List RawPOI))
    (ts : String → Coord → Except Unit (List RawPOI)) (threshold : Nat)
    (c : Coord) :
    ∀ (terms : List String) (acc : List RawPOI),
      pointStep nb ts threshold terms acc c =
        acc ++ (terms.map (fetchForPair nb ts threshold c)).flatten := by
  intro terms
  induction terms with
  | nil => intro acc; simp [pointStep]
  | cons t rest ih =>
    intro acc
    show pointStep nb ts threshold rest (fetchStep nb ts threshold c acc t) c
      = _
    rw [ih, fetchStep_eq_append, List.map_cons, List.flatten_cons,
      List.append_assoc]

/-- The accumulation loop of `get_pois_along_route` equals the
concatenation of the independent per-pair contributions over the
anchor × term cross-product. -/
lemma gatherAllPois_eq_flatten
    (nb : Coord → String → Except Unit (List RawPOI))
    (ts : String → Coord → Except Unit (List RawPOI)) (threshold : Nat)
    (points : List Coord) (terms : List String) :
    gatherAllPois nb ts threshold points terms =
      (points.map (fun c =>
        (terms.map (fetchForPair nb ts threshold c)).flatten)).flatten := by
  have haux : ∀ (ps : List Coord) (acc : List RawPOI),
      ps.foldl (pointStep nb ts threshold terms) acc =
        acc ++ (ps.map (fun c =>
          (terms.map (fetchForPair nb ts threshold c)).flatten)).flatten := by
    intro ps
    induction ps with
    | nil => intro acc; simp
    | cons c rest ih =>
      intro acc
      rw [List.foldl_cons, ih, pointStep_eq_append, List.map_cons,
        List.flatten_cons, List.append_assoc]
  rw [gatherAllPois, haux, List.nil_append]

/-- C2 (amended): the aggregation is the deduplicated concatenation of
independent per-(anchor, term) contributions, so one pair's failure never
aborts the loop over the remaining pairs; a pair whose primary nearby
search fails contributes zero POIs; and a pair whose nearby search
succeeds below threshold but whose text-search fallback fails ALSO
contributes zero POIs — the `continue` in the inner `except` skips
`all_pois.extend(pois)`, discarding the nearby results rather than
keeping them. -/
theorem fetch_failure_isolation :
    (∀ (nb : Coord → String → Except Unit (List RawPOI))
       (ts : String → Coord → Except Unit (List RawPOI))
       (threshold : Nat) (points : List Coord) (terms : List String),
      get_pois_along_route nb ts points terms threshold =
        dedupByPlaceId ((points.map (fun c =>
          (terms.map (fetchForPair nb ts threshold c)).flatten)).flatten)) ∧
    (∀ (nb : Coord → String → Except Unit (List RawPOI))
       (ts : String → Coord → Except Unit (List RawPOI))
       (threshold : Nat) (c : Coord) (term : String),
      nb c term = Except.error () →
      fetchForPair nb ts threshold c term = []) ∧
    (∀ (nb : Coord → String → Except Unit (List RawPOI))
       (ts : String → Coord → Except Unit (List RawPOI))
       (threshold : Nat) (c : Coord) (term : String) (pois : List RawPOI),
      nb c term = Except.ok pois → pois.length < threshold →
      ts term c = Except.error () →
      fetchForPair nb ts threshold c term = []) := by
  refine ⟨?_, ?_, ?_⟩
  · intro nb ts threshold points terms
    rw [get_pois_along_route, gatherAllPois_eq_flatten]
  · intro nb ts threshold c term h
    simp [fetchForPair, h]
  · intro nb ts threshold c term pois h1 h2 h3
    simp [fetchForPair, h1, h2, h3]

/-- Concrete open POI with place id "a" and type "bar". -/
def poiA : RawPOI :=
  { place_id := some "a", name := some "A", location := none
    rating := none, price_level := none, business_status := none
    permanently_closed := none, types := ["bar"], formatted_address := none
    vicinity := none, opening_hours_open_now := none
    user_ratings_total := none }

/-- Nearby-search model returning exactly one POI for every call. -/
def nbOne : Coord → String → Except Unit (List RawPOI) :=
  fun _ _ => Except.ok [poiA]

/-- Text-search model that always raises. -/
def tsFail : String → Coord → Except Unit (List RawPOI) :=
  fun _ _ => Except.error ()

/-- C2 counterexample: the nearby search succeeds with one result (below
the threshold 5) and the text-search fallback fails, yet the aggregation
output is empty — the pair does NOT contribute the nearby-search results,
contrary to the claim. -/
theorem fetch_failure_isolation_cex :
    nbOne { lat := 0, lng := 0 } "bar" = Except.ok [poiA] ∧
      [poiA].length < 5 ∧
      tsFail "bar" { lat := 0, lng := 0 } = Except.error () ∧
      get_pois_along_route nbOne tsFail [{ lat := 0, lng := 0 }] ["bar"] 5
        = [] := by
  exact ⟨rfl, by norm_num, rfl, rfl⟩

/-- C2 witness: the amended theorem applied to the concrete scenario of
the counterexample: that pair contributes zero POIs. -/
theorem fetch_failure_isolation_witness :
    fetchForPair nbOne tsFail 5 { lat := 0, lng := 0 } "bar" = [] :=
  fetch_failure_isolation.2.2 nbOne tsFail 5 { lat := 0, lng := 0 } "bar"
    [poiA] rfl (by norm_num) rfl

/-- C3 (amended): when every per-call nearby search fails (so the
failures cascade to zero total POIs for every category),
`search_pois_along_route` still returns the `{"pois": []}` dictionary: no
exception propagates, and no `error` field is produced (the `error`
branch fires only when the body itself raises, which per-call failures
never cause). -/
theorem allfail_returns_empty_pois :
    ∀ (nb : Coord → String → Except Unit (List RawPOI))
      (ts : String → Coord → Except Unit (List RawPOI))
      (sqrtFn : ℚ → ℚ) (points : List Coord)
      (preference budget_level : String) (origin : Coord),
      (∀ (c : Coord) (t : String), nb c t = Except.error ()) →
      search_pois_along_route nb ts sqrtFn points preference budget_level
          origin
        = SearchResult.ok [] := by
  intro nb ts sqrtFn points preference budget_level origin hfail
  have hgather : aggregatedPois nb ts points preference = [] := by
    rw [aggregatedPois, get_pois_along_route, gatherAllPois_eq_flatten]
    have hinner : (points.map (fun c =>
        ((preferenceCategories preference).map
          (fetchForPair nb ts 5 c)).flatten)).flatten = [] := by
      rw [List.flatten_eq_nil_iff]
      intro l hl
      obtain ⟨c, _, rfl⟩ := List.mem_map.mp hl
      rw [List.flatten_eq_nil_iff]
      intro l2 hl2
      obtain ⟨t, _, rfl⟩ := List.mem_map.mp hl2
      simp [fetchForPair, hfail c t]
    rw [hinner]
    rfl
  rw [search_pois_along_route, finalPois, pipelineBuckets, pipelineFiltered,
    hgather]
  have hempty : ∀ l ∈ (categoryBuckets (preferenceCategories preference)
      (budgetAllowed budget_level) (closureFilterAndProject [])).map
        (fun bucket => top5 sqrtFn origin bucket.2), l = [] := by
    intro l hl
    obtain ⟨bucket, hb, rfl⟩ := List.mem_map.mp hl
    obtain ⟨t, _, rfl⟩ := List.mem_map.mp hb
    rfl
  rw [List.flatten_eq_nil_iff.mpr hempty]

/-- Nearby-search model that always raises. -/
def nbFail : Coord → String → Except Unit (List RawPOI) :=
  fun _ _ => Except.error ()

/-- C3 counterexample: with every upstream call failing (zero POIs for
every category), the concrete result is `{"pois": []}` — it carries a
`pois` field, not the `error` field the claim asserts. -/
theorem allfail_returns_empty_pois_cex :
    search_pois_along_route nbFail tsFail (fun q => q)
        [{ lat := 0, lng := 0 }] "food" "mid-range" { lat := 0, lng := 0 }
      = SearchResult.ok [] := rfl

/-- C3 witness: the amended theorem applied to concrete always-failing
services. -/
theorem allfail_returns_empty_pois_witness :
    search_pois_along_route nbFail tsFail (fun q => q)
        [{ lat := 1, lng := 2 }] "nightlife" "budget" { lat := 0, lng := 0 }
      = SearchResult.ok [] :=
  allfail_returns_empty_pois nbFail tsFail (fun q => q)
    [{ lat := 1, lng := 2 }] "nightlife" "budget" { lat := 0, lng := 0 }
    (fun _ _ => rfl)

/-- A truthy place id is the actual `place_id` value, and is
non-empty. -/
lemma truthyPlaceId_some {p : RawPOI} {k : String}
    (h : truthyPlaceId p = some k) : p.place_id = some k ∧ k ≠ "" := by
  cases hid : p.place_id with
  | none => simp [truthyPlaceId, strTruthy, hid] at h
  | some s =>
    simp only [truthyPlaceId, strTruthy, hid] at h
    by_cases hs : s = ""
    · simp [hs] at h
    · simp only [if_neg hs, Option.some.injEq] at h
      subst h
      exact ⟨rfl, hs⟩

/-- Membership in the dictionary after an update at its own key: exactly
the newly written value. -/
lemma mem_insertPoi_self (acc : List (String × RawPOI)) (k : String)
    (q p : RawPOI) : (k, p) ∈ insertPoi acc k q ↔ p = q := by
  unfold insertPoi
  by_cases h : acc.any (fun kv => kv.1 = k)
  · simp only [if_pos h, List.mem_map]
    constructor
    · rintro ⟨kv, hkv, hf⟩
      by_cases hk : kv.1 = k
      · rw [if_pos hk] at hf
        cases hf
        rfl
      · rw [if_neg hk] at hf
        exact absurd (congrArg Prod.fst hf) hk
    · rintro rfl
      obtain ⟨kv, hkv, hk⟩ := List.any_eq_true.mp h
      exact ⟨kv, hkv, by simp at hk; simp [hk]⟩
  · simp only [if_neg h, List.mem_append, List.mem_singleton]
    constructor
    · rintro (hin | heq)
      · exact absurd (List.any_eq_true.mpr ⟨(k, p), hin, by simp⟩) h
      · cases heq
        rfl
    · rintro rfl
      exact Or.inr rfl

/-- Membership in the dictionary after an update at a different key is
unchanged. -/
lemma mem_insertPoi_ne (acc : List (String × RawPOI)) (k0 : String)
    (q : RawPOI) (k : String) (p : RawPOI) (hne : k ≠ k0) :
    (k, p) ∈ insertPoi acc k0 q ↔ (k, p) ∈ acc := by
  unfold insertPoi
  by_cases h : acc.any (fun kv => kv.1 = k0)
  · simp only [if_pos h, List.mem_map]
    constructor
    · rintro ⟨kv, hkv, hf⟩
      by_cases hk : kv.1 = k0
      · rw [if_pos hk] at hf
        exact absurd (congrArg Prod.fst hf).symm hne
      · rw [if_neg hk] at hf
        exact hf ▸ hkv
    · intro hin
      exact ⟨(k, p), hin, by rw [if_neg (by simpa using hne)]⟩
  · simp only [if_neg h, List.mem_append, List.mem_singleton]
    constructor
    · rintro (hin | heq)
      · exact hin
      · exact absurd (congrArg Prod.fst heq) hne
    · exact Or.inl

/-- One further POI extends the dictionary by one fold step. -/
lemma dedupPairs_concat (l : List RawPOI) (q : RawPOI) :
    dedupPairs (l ++ [q]) =
      match truthyPlaceId q with
      | some k => insertPoi (dedupPairs l) k q
      | none => dedupPairs l := by
  unfold dedupPairs
  rw [List.foldl_append]
  rfl

/-- Full characterization of the deduplication dictionary: `(k, p)` is an
entry exactly when `p` is the LAST element of the input carrying truthy
place id `k`. -/
lemma mem_dedupPairs (l : List RawPOI) (k : String) (p : RawPOI) :
    (k, p) ∈ dedupPairs l ↔
      (l.filter (fun q => truthyPlaceId q == some k)).getLast? = some p := by
  induction l using List.reverseRecOn with
  | nil => simp [dedupPairs]
  | append_singleton xs q ih =>
    rw [dedupPairs_concat, List.filter_append]
    cases hq : truthyPlaceId q with
    | none =>
      have hpred : (truthyPlaceId q == some k) = false := by simp [hq]
      simp only [List.filter_cons, hpred, Bool.false_eq_true, if_false,
        List.filter_nil, List.append_nil]
      exact ih
    | some k0 =>
      by_cases hk : k = k0
      · subst hk
        have hpred : (truthyPlaceId q == some k) = true := by simp [hq]
        simp only [List.filter_cons, hpred, if_true, List.filter_nil,
          List.getLast?_concat]
        rw [mem_insertPoi_self]
        exact ⟨fun h => by rw [h], fun h => by cases h; rfl⟩
      · have hpred : (truthyPlaceId q == some k) = false := by
          simp [hq, Ne.symm hk]
        simp only [List.filter_cons, hpred, Bool.false_eq_true, if_false,
          List.filter_nil, List.append_nil]
        rw [mem_insertPoi_ne _ _ _ _ _ hk]
        exact ih

/-- Every dictionary entry holds a POI whose truthy place id is its
key. -/
lemma dedupPairs_key (l : List RawPOI) :
    ∀ kv ∈ dedupPairs l, truthyPlaceId kv.2 = some kv.1 := by
  rintro ⟨k, p⟩ hm
  have h := (mem_dedupPairs l k p).mp hm
  have hmem := List.mem_of_getLast?_eq_some h
  have := (List.mem_filter.mp hmem).2
  simpa using this

/-- The dictionary keys are pairwise distinct. -/
lemma dedupPairs_keys_nodup (l : List RawPOI) :
    ((dedupPairs l).map Prod.fst).Nodup := by
  induction l using List.reverseRecOn with
  | nil => simp [dedupPairs]
  | append_singleton xs q ih =>
    rw [dedupPairs_concat]
    cases hq : truthyPlaceId q with
    | none => exact ih
    | some k0 =>
      show (List.map Prod.fst (insertPoi (dedupPairs xs) k0 q)).Nodup
      unfold insertPoi
      by_cases h : (dedupPairs xs).any (fun kv => kv.1 = k0)
      · rw [if_pos h, List.map_map]
        have : List.map (Prod.fst ∘ fun kv =>
            if kv.1 = k0 then (k0, q) else kv) (dedupPairs xs)
            = List.map Prod.fst (dedupPairs xs) := by
          apply List.map_congr_left
          intro kv _
          by_cases hk : kv.1 = k0 <;> simp [hk]
        rw [this]
        exact ih
      · rw [if_neg h, List.map_append]
        have hnotin : k0 ∉ (dedupPairs xs).map Prod.fst := by
          intro hmem
          obtain ⟨kv, hkv, hfst⟩ := List.mem_map.mp hmem
          exact h (List.any_eq_true.mpr ⟨kv, hkv, by simp [hfst]⟩)
        simp only [List.map_cons, List.map_nil]
        rw [List.nodup_append]
        exact ⟨ih, List.nodup_singleton _, by simpa using hnotin⟩

/-- C1 (amended): the deduplication step of `get_pois_along_route`
returns at most one POI per place id (no two output entries share a
place_id), and for every id occurring in the input it preserves the
LAST-seen POI with that id — the dict comprehension overwrites the stored
value on every repeated key, so earlier duplicates, not later ones, are
dropped silently (the entry does keep the position of the first
occurrence). -/
theorem dedup_keeps_last_seen :
    ∀ (l : List RawPOI),
      (dedupByPlaceId l).Pairwise (fun p q => p.place_id ≠ q.place_id) ∧
      ∀ (k : String) (p : RawPOI),
        (p ∈ dedupByPlaceId l ∧ truthyPlaceId p = some k) ↔
          (l.filter (fun q =>
            truthyPlaceId q == some k)).getLast? = some p := by
  intro l
  constructor
  · have h1 : (dedupPairs l).Pairwise (fun kv kv' => kv.1 ≠ kv'.1) :=
      List.pairwise_map.mp (dedupPairs_keys_nodup l)
    rw [dedupByPlaceId, List.pairwise_map]
    refine List.Pairwise.imp_of_mem ?_ h1
    intro kv kv' hm hm' hne
    rw [(truthyPlaceId_some (dedupPairs_key l kv hm)).1,
      (truthyPlaceId_some (dedupPairs_key l kv' hm')).1]
    simp [hne]
  · intro k p
    constructor
    · rintro ⟨hmem, htr⟩
      obtain ⟨kv, hkv, hsnd⟩ := List.mem_map.mp hmem
      have hk := dedupPairs_key l kv hkv
      rw [hsnd, htr] at hk
      have hkv2 : kv = (k, p) := by
        cases hk
        exact Prod.ext rfl hsnd
      rw [hkv2] at hkv
      exact (mem_dedupPairs l k p).mp hkv
    · intro h
      have hpair := (mem_dedupPairs l k p).mpr h
      refine ⟨List.mem_map.mpr ⟨(k, p), hpair, rfl⟩, ?_⟩
      have hmem := List.mem_of_getLast?_eq_some h
      simpa using (List.mem_filter.mp hmem).2

/-- Concrete POI with place id "x", named "First". -/
def poiX1 : RawPOI :=
  { place_id := some "x", name := some "First", location := none
    rating := none, price_level := none, business_status := none
    permanently_closed := none, types := [], formatted_address := none
    vicinity := none, opening_hours_open_now := none
    user_ratings_total := none }

/-- Concrete POI with the same place id "x", named "Second". -/
def poiX2 : RawPOI :=
  { place_id := some "x", name := some "Second", location := none
    rating := none, price_level := none, business_status := none
    permanently_closed := none, types := [], formatted_address := none
    vicinity := none, opening_hours_open_now := none
    user_ratings_total := none }

/-- C1 counterexample: two distinct POIs share place id "x"; the
deduplicated output is the SECOND one — the first-seen POI is not
preserved, the later duplicate silently replaces it. -/
theorem dedup_keeps_last_seen_cex :
    dedupByPlaceId [poiX1, poiX2] = [poiX2] ∧ poiX1 ≠ poiX2 := by
  exact ⟨rfl, by decide⟩

/-- The per-bucket top-5 selection only reorders and drops POIs of the
bucket: its output is contained in the bucket. -/
lemma mem_top5_subset (sqrtFn : ℚ → ℚ) (origin : Coord)
    (pois : List FilteredPOI) (fp : FilteredPOI)
    (h : fp ∈ top5 sqrtFn origin pois) : fp ∈ pois := by
  unfold top5 at h
  obtain ⟨pair, hpair, rfl⟩ := List.mem_map.mp h
  have h1 : pair ∈ (pois.map fun p =>
      (score sqrtFn origin p, p)).insertionSort (fun a b => b.1 ≤ a.1) :=
    (List.take_sublist _ _).mem hpair
  have h2 := (List.perm_insertionSort _ _).mem_iff.mp h1
  obtain ⟨p, hp, heq⟩ := List.mem_map.mp h2
  cases heq
  exact hp

/-- Every POI surviving the filtering step is the projection of an
aggregated POI that is neither permanently nor temporarily closed. -/
lemma mem_pipelineFiltered_provenance
    (nb : Coord → String → Except Unit (List RawPOI))
    (ts : String → Coord → Except Unit (List RawPOI))
    (points : List Coord) (preference : String) (fp : FilteredPOI)
    (h : fp ∈ pipelineFiltered nb ts points preference) :
    ∃ raw ∈ aggregatedPois nb ts points preference,
      closedPoi raw = false ∧ fp = project raw := by
  unfold pipelineFiltered closureFilterAndProject at h
  obtain ⟨raw, hraw, rfl⟩ := List.mem_map.mp h
  have h4 := List.mem_filter.mp hraw
  exact ⟨raw, h4.1, by simpa using h4.2, rfl⟩

/-- The closed-POI test spelt out on its two component fields. -/
lemma closedPoi_eq_false (raw : RawPOI) :
    closedPoi raw = false ↔
      raw.permanently_closed.getD false = false ∧
        raw.business_status ≠ some "CLOSED_TEMPORARILY" := by
  simp [closedPoi]

/-- C8: no `FilteredPOI` is ever constructed from a permanently-closed or
temporarily-closed `RawPOI`: every POI of every category bucket, and
every POI of the final `pois` output of `search_pois_along_route`, is the
projection of an aggregated POI with `permanently_closed` falsy and
`business_status ≠ "CLOSED_TEMPORARILY"`. -/
theorem no_closed_poi_selected :
    ∀ (nb : Coord → String → Except Unit (List RawPOI))
      (ts : String → Coord → Except Unit (List RawPOI))
      (sqrtFn : ℚ → ℚ) (points : List Coord)
      (preference budget_level : String) (origin : Coord),
      (∀ (t : String) (bucketPois : List FilteredPOI),
        (t, bucketPois) ∈ pipelineBuckets nb ts points preference
            budget_level →
        ∀ fp ∈ bucketPois,
          ∃ raw ∈ aggregatedPois nb ts points preference,
            raw.permanently_closed.getD false = false ∧
            raw.business_status ≠ some "CLOSED_TEMPORARILY" ∧
            fp = project raw) ∧
      (∀ fp ∈ finalPois nb ts sqrtFn points preference budget_level origin,
        ∃ raw ∈ aggregatedPois nb ts points preference,
          raw.permanently_closed.getD false = false ∧
          raw.business_status ≠ some "CLOSED_TEMPORARILY" ∧
          fp = project raw) := by
  intro nb ts sqrtFn points preference budget_level origin
  have hbucket : ∀ (t : String) (bucketPois : List FilteredPOI),
      (t, bucketPois) ∈ pipelineBuckets nb ts points preference
          budget_level →
      ∀ fp ∈ bucketPois,
        ∃ raw ∈ aggregatedPois nb ts points preference,
          raw.permanently_closed.getD false = false ∧
          raw.business_status ≠ some "CLOSED_TEMPORARILY" ∧
          fp = project raw := by
    intro t bucketPois hb fp hfp
    unfold pipelineBuckets categoryBuckets at hb
    obtain ⟨t2, ht2, heq⟩ := List.mem_map.mp hb
    have hpois : bucketPois = (pipelineFiltered nb ts points
        preference).filter fun p =>
          priceOk (budgetAllowed budget_level) p &&
            (assignedTerm (preferenceCategories preference) p
              == some t2) := congrArg Prod.snd heq.symm
    rw [hpois] at hfp
    obtain ⟨raw, hraw, hclosed, rfl⟩ :=
      mem_pipelineFiltered_provenance nb ts points preference fp
        (List.mem_of_mem_filter hfp)
    obtain ⟨h1, h2⟩ := (closedPoi_eq_false raw).mp hclosed
    exact ⟨raw, hraw, h1, h2, rfl⟩
  refine ⟨hbucket, ?_⟩
  intro fp hfp
  unfold finalPois at hfp
  obtain ⟨l, hl, hfpl⟩ := List.mem_flatten.mp hfp
  obtain ⟨bucket, hb, rfl⟩ := List.mem_map.mp hl
  exact hbucket bucket.1 bucket.2 hb fp
    (mem_top5_subset sqrtFn origin bucket.2 fp hfpl)

/-- C9: the deduplication step silently drops every POI whose place id is
absent or empty: every element of its output has a present, non-empty
place id, and consequently every POI of the filtering stage and of the
final output of `search_pois_along_route` carries a non-empty place_id
string. -/
theorem dedup_drops_falsy_place_ids :
    (∀ (l : List RawPOI) (p : RawPOI), p ∈ dedupByPlaceId l →
      ∃ s, p.place_id = some s ∧ s ≠ "") ∧
    (∀ (nb : Coord → String → Except Unit (List RawPOI))
       (ts : String → Coord → Except Unit (List RawPOI))
       (points : List Coord) (preference : String) (fp : FilteredPOI),
      fp ∈ pipelineFiltered nb ts points preference →
      fp.place_id ≠ "") ∧
    (∀ (nb : Coord → String → Except Unit (List RawPOI))
       (ts : String → Coord → Except Unit (List RawPOI))
       (sqrtFn : ℚ → ℚ) (points : List Coord)
       (preference budget_level : String) (origin : Coord)
       (fp : FilteredPOI),
      fp ∈ finalPois nb ts sqrtFn points preference budget_level origin →
      fp.place_id ≠ "") := by
  have hmem : ∀ (l : List RawPOI) (p : RawPOI), p ∈ dedupByPlaceId l →
      ∃ s, p.place_id = some s ∧ s ≠ "" := by
    intro l p hp
    obtain ⟨kv, hkv, hsnd⟩ := List.mem_map.mp hp
    have hk := dedupPairs_key l kv hkv
    obtain ⟨hid, hne⟩ := truthyPlaceId_some hk
    exact ⟨kv.1, hsnd ▸ hid, hne⟩
  have hproj : ∀ (raw : RawPOI) (s : String), raw.place_id = some s →
      (project raw).place_id = s := by
    intro raw s hid
    simp [project, hid]
  have hfiltered : ∀ (nb : Coord → String → Except Unit (List RawPOI))
      (ts : String → Coord → Except Unit (List RawPOI))
      (points : List Coord) (preference : String) (fp : FilteredPOI),
      fp ∈ pipelineFiltered nb ts points preference → fp.place_id ≠ "" := by
    intro nb ts points preference fp hfp
    obtain ⟨raw, hraw, _, rfl⟩ :=
      mem_pipelineFiltered_provenance nb ts points preference fp hfp
    obtain ⟨s, hid, hne⟩ := hmem _ raw hraw
    rw [hproj raw s hid]
    exact hne
  refine ⟨hmem, hfiltered, ?_⟩
  intro nb ts sqrtFn points preference budget_level origin fp hfp
  unfold finalPois at hfp
  obtain ⟨l, hl, hfpl⟩ := List.mem_flatten.mp hfp
  obtain ⟨bucket, hb, rfl⟩ := List.mem_map.mp hl
  have h2 := mem_top5_subset sqrtFn origin bucket.2 fp hfpl
  unfold pipelineBuckets categoryBuckets at hb
  obtain ⟨t2, ht2, heq⟩ := List.mem_map.mp hb
  have hpois : bucket.2 = (pipelineFiltered nb ts points
      preference).filter fun p =>
        priceOk (budgetAllowed budget_level) p &&
          (assignedTerm (preferenceCategories preference) p
            == some t2) := congrArg Prod.snd heq.symm
  rw [hpois] at h2
  exact hfiltered nb ts points preference fp (List.mem_of_mem_filter h2)

/-- Concrete open (operational) place record with id "r1" and type
"restaurant". -/
def rawOpen : RawPOI :=
  { place_id := some "r1", name := some "Good Restaurant", location := none
    rating := some 4, price_level := none
    business_status := some "OPERATIONAL", permanently_closed := some false
    types := ["restaurant"], formatted_address := some "Addr 1"
    vicinity := none, opening_hours_open_now := none
    user_ratings_total := some 10 }

/-- Nearby-search model returning the open record for every call. -/
def nbOpen : Coord → String → Except Unit (List RawPOI) :=
  fun _ _ => Except.ok [rawOpen]

/-- Text-search model returning no supplemental results. -/
def tsEmpty : String → Coord → Except Unit (List RawPOI) :=
  fun _ _ => Except.ok []

/-- C8 witness: the invariant applied to a concrete run whose final
output contains the projection of the open record. -/
theorem no_closed_poi_selected_witness :
    ∃ raw ∈ aggregatedPois nbOpen tsEmpty [{ lat := 0, lng := 0 }] "food",
      raw.permanently_closed.getD false = false ∧
        raw.business_status ≠ some "CLOSED_TEMPORARILY" ∧
        project rawOpen = project raw :=
  (no_closed_poi_selected nbOpen tsEmpty (fun q => q)
      [{ lat := 0, lng := 0 }] "food" "mid-range" { lat := 0, lng := 0 }).2
    (project rawOpen) (by decide)

/-- C9 witness: the dedup-output guarantee applied to a concrete list
with one falsy-id POI dropped, and the final-output guarantee applied to
a concrete run. -/
theorem dedup_drops_falsy_place_ids_witness :
    (∃ s, rawOpen.place_id = some s ∧ s ≠ "") ∧
      (project rawOpen).place_id ≠ "" :=
  ⟨dedup_drops_falsy_place_ids.1 [rawOpen] rawOpen (by decide),
    dedup_drops_falsy_place_ids.2.2 nbOpen tsEmpty (fun q => q)
      [{ lat := 0, lng := 0 }] "food" "mid-range" { lat := 0, lng := 0 }
      (project rawOpen) (by decide)⟩

end ItineraryPlanner
